import Mathlib

/-!
Shallow embedding of the behavioral core of the Movie_APPs repository
(src/Project-Individu-Movie-Apps/index.tsx): the catalog access layer
(fetchMovies, fetchMovieRecommendations, handleSearch), the favorites
registry (addFavorite, removeFavorite, isFavorite) and the favorites
store (saveFavorites, loadFavorites), together with theorems settling
the specification claims about them.

Modelling conventions:
- JavaScript numbers carried in movie records are modelled as ℚ for the
  fractional fields (vote_average, popularity) and ℤ for the integral
  ones (id, vote_count); the code performs no arithmetic on them, only
  copying, (in)equality comparison and JSON (de)serialization, and the
  platform's JSON stringify/parse pair round-trips numbers exactly.
- Asynchronous effects are sequential in the source (each await resumes
  before the next step), so operations are embedded as pure state
  transformers; the HTTP layer is a parameter mapping a request URL to
  either a parsed well-formed response or a failure, covering exactly
  the cases the claims quantify over.
-/

namespace MovieApps

/-- The `Movie` interface (index.tsx lines 43-54): the ten fields of a
movie record as typed by the application. -/
structure Movie where
  id : Int
  title : String
  overview : String
  poster_path : String
  backdrop_path : String
  vote_average : ℚ
  popularity : ℚ
  original_language : String
  release_date : String
  vote_count : Int
deriving DecidableEq, Repr

/-- A raw movie object as it appears in the `results` array of a parsed
catalog response body (§6 of the spec: JSON field names id, title,
overview, poster_path, backdrop_path, vote_average, popularity,
original_language, release_date, vote_count). -/
structure RawMovie where
  id : Int
  title : String
  overview : String
  poster_path : String
  backdrop_path : String
  vote_average : ℚ
  popularity : ℚ
  original_language : String
  release_date : String
  vote_count : Int
deriving DecidableEq, Repr

/-- The identification of a raw catalog movie object with the `Movie`
entity: the code returns `response.data.results` directly, so each JSON
field is read under the identical name of the `Movie` interface. -/
def movieOfRaw (r : RawMovie) : Movie :=
  { id := r.id
    title := r.title
    overview := r.overview
    poster_path := r.poster_path
    backdrop_path := r.backdrop_path
    vote_average := r.vote_average
    popularity := r.popularity
    original_language := r.original_language
    release_date := r.release_date
    vote_count := r.vote_count }

/-- A transport or decoding failure of a catalog request (§7 taxonomy);
in the source both reject the awaited promise and land in the `catch`. -/
inductive FetchError where
  | transport
  | decoding
deriving DecidableEq, Repr

/-- The parsed body (`response.data`) of a well-formed catalog response:
an object carrying a `results` array of movie objects. -/
structure CatalogResponse where
  results : List RawMovie
deriving DecidableEq, Repr

/-- The HTTP layer: maps a request URL to a parsed well-formed response
or a failure. The claims quantify only over these two outcomes. -/
abbrev Net := String → Except FetchError CatalogResponse

/-- index.tsx line 57. -/
def API_KEY : String := "f5817ca812a95ce0e0ab07166bfc9fe5"

/-- index.tsx line 58. -/
def BASE_URL : String := "https://api.themoviedb.org/3/movie"

/-- index.tsx line 59. -/
def SEARCH_URL : String := "https://api.themoviedb.org/3/search/movie"

/-- The URL built by `fetchMovies` (index.tsx lines 65-67). -/
def fetchMoviesUrl (endpoint : String) : String :=
  BASE_URL ++ "/" ++ endpoint ++ "?api_key=" ++ API_KEY ++ "&language=en-US&page=1"

/-- `fetchMovies` (index.tsx lines 63-73): on success returns
`response.data.results`, on any caught error logs and returns `[]`. -/
def fetchMovies (net : Net) (endpoint : String) : List Movie :=
  match net (fetchMoviesUrl endpoint) with
  | .ok response => response.results.map movieOfRaw
  | .error _ => []

/-- The URL built by `fetchMovieRecommendations` (index.tsx lines 77-79). -/
def fetchRecommendationsUrl (movieId : Int) : String :=
  BASE_URL ++ "/" ++ toString movieId ++ "/recommendations?api_key=" ++ API_KEY
    ++ "&language=en-US&page=1"

/-- `fetchMovieRecommendations` (index.tsx lines 75-85): on success
returns `response.data.results`, on any caught error logs and returns `[]`. -/
def fetchMovieRecommendations (net : Net) (movieId : Int) : List Movie :=
  match net (fetchRecommendationsUrl movieId) with
  | .ok response => response.results.map movieOfRaw
  | .error _ => []

/-- The URL built by `handleSearch` (index.tsx lines 354-356). -/
def searchUrl (query : String) : String :=
  SEARCH_URL ++ "?api_key=" ++ API_KEY ++ "&query=" ++ query

/-- `handleSearch` (index.tsx lines 352-361) as a transformer of the
`results` component of the search screen state: on success it calls
`setResults(response.data.results)`; in the `catch` branch it only logs,
so the `results` state is left as it was. -/
def handleSearch (net : Net) (query : String) (results : List Movie) : List Movie :=
  match net (searchUrl query) with
  | .ok response => response.results.map movieOfRaw
  | .error _ => results

/-! ### Favorites persistence (FavoritesStore, index.tsx lines 112-129)

`saveFavorites` serializes the favorites array with `JSON.stringify` and
writes the string into the storage slot keyed `"@favorites"`;
`loadFavorites` reads the slot and returns `JSON.parse(jsonValue)` when
`jsonValue` is truthy, `[]` otherwise, with a `catch` returning `[]`
when the read or the parse throws. -/

/-- A parsed JSON value, as produced by `JSON.parse` (numbers as ℚ, see
the header; object fields in emission order, looked up by name). -/
inductive Json where
  | null
  | bool (b : Bool)
  | num (q : ℚ)
  | str (s : String)
  | arr (elems : List Json)
  | obj (fields : List (String × Json))

/-- JavaScript property access `j.name` on a parsed JSON object: the
value under the first field named `name`, if any. -/
def Json.getField (j : Json) (name : String) : Option Json :=
  match j with
  | .obj fields => fields.lookup name
  | _ => none

/-- `JSON.stringify` of a `Movie` object: an object with the ten fields
of the interface under their own names (index.tsx lines 43-54). -/
def encodeMovie (m : Movie) : Json :=
  .obj
    [("id", .num (m.id : ℚ)),
     ("title", .str m.title),
     ("overview", .str m.overview),
     ("poster_path", .str m.poster_path),
     ("backdrop_path", .str m.backdrop_path),
     ("vote_average", .num m.vote_average),
     ("popularity", .num m.popularity),
     ("original_language", .str m.original_language),
     ("release_date", .str m.release_date),
     ("vote_count", .num (m.vote_count : ℚ))]

/-- Reads a JSON value as text. -/
def Json.asStr (j : Json) : Option String :=
  match j with
  | .str s => some s
  | _ => none

/-- Reads a JSON value as a (rational) number. -/
def Json.asNum (j : Json) : Option ℚ :=
  match j with
  | .num q => some q
  | _ => none

/-- Reads a JSON value as an integer number. -/
def Json.asInt (j : Json) : Option Int :=
  match j with
  | .num q => if q.den = 1 then some q.num else none
  | _ => none

/-- Observation function stating when a parsed JSON value is exactly a
movie object: the ten fields of the `Movie` interface read by name. -/
def decodeMovie (j : Json) : Option Movie := do
  let id ← (j.getField "id").bind Json.asInt
  let title ← (j.getField "title").bind Json.asStr
  let overview ← (j.getField "overview").bind Json.asStr
  let poster ← (j.getField "poster_path").bind Json.asStr
  let backdrop ← (j.getField "backdrop_path").bind Json.asStr
  let voteAvg ← (j.getField "vote_average").bind Json.asNum
  let pop ← (j.getField "popularity").bind Json.asNum
  let lang ← (j.getField "original_language").bind Json.asStr
  let release ← (j.getField "release_date").bind Json.asStr
  let voteCount ← (j.getField "vote_count").bind Json.asInt
  pure
    { id := id
      title := title
      overview := overview
      poster_path := poster
      backdrop_path := backdrop
      vote_average := voteAvg
      popularity := pop
      original_language := lang
      release_date := release
      vote_count := voteCount }

/-- Observation function: decodes every element of a list of parsed
JSON values as a movie object, failing if any element fails. -/
def decodeMovies (elems : List Json) : Option (List Movie) :=
  match elems with
  | [] => some []
  | j :: rest => do
    let m ← decodeMovie j
    let ms ← decodeMovies rest
    pure (m :: ms)

/-- Observation function stating when a parsed JSON value is exactly a
movie list: an array whose every element is a movie object. -/
def decodeMovieList (j : Json) : Option (List Movie) :=
  match j with
  | .arr elems => decodeMovies elems
  | _ => none

/-- The string content of the `"@favorites"` storage slot, modelled up
to JSON parseability: `strOfJson j` stands for a string that
`JSON.parse` turns into `j` (in particular any `JSON.stringify` output,
which parses back to the stringified value and is never empty),
`notJson` for a non-empty string on which `JSON.parse` throws, and
`emptyStr` for the empty string (the one falsy string in JavaScript). -/
inductive StoredString where
  | strOfJson (j : Json)
  | notJson
  | emptyStr

/-- JavaScript truthiness of the stored string: only the empty string is
falsy. -/
def StoredString.truthy (s : StoredString) : Bool :=
  match s with
  | .emptyStr => false
  | _ => true

/-- `JSON.parse` on the stored string: the parsed value, or `none` when
it throws. (`JSON.parse ""` throws.) -/
def jsonParse (s : StoredString) : Option Json :=
  match s with
  | .strOfJson j => some j
  | .notJson => none
  | .emptyStr => none

/-- `saveFavorites` (index.tsx lines 112-119): the slot content written,
`JSON.stringify(favorites)` — the JSON rendering of the array of
encoded movie objects. -/
def saveFavorites (favorites : List Movie) : StoredString :=
  .strOfJson (.arr (favorites.map encodeMovie))

/-- `loadFavorites` (index.tsx lines 121-129) as a function of the slot
content (`none` = slot absent, `AsyncStorage.getItem` returns null):
`return jsonValue ? JSON.parse(jsonValue) : []`, with the `catch`
returning `[]` when the parse throws. The returned JavaScript value is
a parsed JSON value; the code performs no validation on it. -/
def loadFavorites (slot : Option StoredString) : Json :=
  match slot with
  | none => .arr []
  | some jsonValue =>
    if jsonValue.truthy then
      match jsonParse jsonValue with
      | some v => v
      | none => .arr []
    else .arr []

/-! ### Favorites registry (FavoritesProvider, index.tsx lines 100-156) -/

/-- The state touched by the favorites registry: the in-memory
`favorites` React state and the `"@favorites"` storage slot. -/
structure FavState where
  favorites : List Movie
  slot : Option StoredString

/-- `addFavorite` (index.tsx lines 131-135):
`newFavorites = [...favorites, movie]`, then `setFavorites` and
`saveFavorites` on it. -/
def addFavorite (movie : Movie) (st : FavState) : FavState :=
  let newFavorites := st.favorites ++ [movie]
  { favorites := newFavorites, slot := some (saveFavorites newFavorites) }

/-- `removeFavorite` (index.tsx lines 137-141):
`newFavorites = favorites.filter((movie) => movie.id !== movieId)`,
then `setFavorites` and `saveFavorites` on it. -/
def removeFavorite (movieId : Int) (st : FavState) : FavState :=
  let newFavorites := st.favorites.filter (fun movie => movie.id != movieId)
  { favorites := newFavorites, slot := some (saveFavorites newFavorites) }

/-- `isFavorite` (index.tsx lines 143-145):
`favorites.some((movie) => movie.id === movieId)`. -/
def isFavorite (movieId : Int) (st : FavState) : Bool :=
  st.favorites.any (fun movie => movie.id == movieId)

/-! ### Concrete sample values used by witnesses and counterexamples -/

/-- A concrete movie record. -/
def sampleMovie : Movie :=
  { id := 7
    title := "Se7en"
    overview := "Two detectives hunt a serial killer."
    poster_path := "/se7en.jpg"
    backdrop_path := "/se7en-backdrop.jpg"
    vote_average := (8 : ℚ)
    popularity := (55 : ℚ)
    original_language := "en"
    release_date := "1995-09-22"
    vote_count := 12000 }

/-- The raw catalog object carrying the same fields as `sampleMovie`. -/
def sampleRaw : RawMovie :=
  { id := 7
    title := "Se7en"
    overview := "Two detectives hunt a serial killer."
    poster_path := "/se7en.jpg"
    backdrop_path := "/se7en-backdrop.jpg"
    vote_average := (8 : ℚ)
    popularity := (55 : ℚ)
    original_language := "en"
    release_date := "1995-09-22"
    vote_count := 12000 }

/-- An HTTP layer on which every request fails at the transport level. -/
def failNet : Net := fun _ => .error .transport

/-- An HTTP layer on which every request succeeds with a one-element
`results` array. -/
def okNet : Net := fun _ => .ok { results := [sampleRaw] }

/-- A favorites state holding one favorite and an empty storage slot. -/
def stSample : FavState := { favorites := [sampleMovie], slot := none }

/-- A favorites state holding no favorites and an empty storage slot. -/
def emptySt : FavState := { favorites := [], slot := none }

/-- Helper: decoding an encoded movie object recovers the movie,
field for field. -/
theorem decodeMovie_encodeMovie (m : Movie) : decodeMovie (encodeMovie m) = some m := by
  simp [decodeMovie, encodeMovie, Json.getField, List.lookup, Json.asInt, Json.asStr,
    Json.asNum, Rat.den_intCast, Rat.num_intCast]

/-- Helper: decoding a list of encoded movie objects recovers the list. -/
theorem decodeMovies_map_encode (C : List Movie) :
    decodeMovies (C.map encodeMovie) = some C := by
  induction C with
  | nil => rfl
  | cons m ms ih => simp [decodeMovies, decodeMovie_encodeMovie, ih]

/-! ### Claim theorems -/

/-- C1, counterexample: the claim "when the catalog request fails, the
search operation returns an empty sequence of movies to its caller" is
false on the code: on a concrete failing request, `handleSearch` leaves
the previous (non-empty) results in place instead of an empty sequence. -/
theorem handleSearch_empty_on_error_counterexample :
    failNet (searchUrl "batman") = .error .transport ∧
    handleSearch failNet "batman" [sampleMovie] = [sampleMovie] ∧
    [sampleMovie] ≠ ([] : List Movie) :=
  ⟨rfl, rfl, by simp⟩

/-- C1, amended: when the catalog request of a search fails, the error
is caught (never observable by the caller) and the search screen's
results state is left unchanged — not reset to an empty sequence. -/
theorem handleSearch_fail_keepsResults (net : Net) (query : String)
    (results : List Movie) (e : FetchError) (h : net (searchUrl query) = .error e) :
    handleSearch net query results = results := by
  simp [handleSearch, h]

/-- C1, witness for the amended theorem at a concrete failing request. -/
theorem handleSearch_fail_keepsResults_witness :
    handleSearch failNet "batman" [sampleMovie] = [sampleMovie] :=
  handleSearch_fail_keepsResults failNet "batman" [sampleMovie] FetchError.transport rfl

/-- C2: for every category among now_playing, popular, top_rated,
upcoming and every movie id, when the respective catalog request fails,
`fetchMovies` and `fetchMovieRecommendations` each return the empty
list; the failure is absorbed and not propagated to the caller. -/
theorem fetch_failSoft (net : Net) (endpoint : String) (movieId : Int)
    (e e' : FetchError)
    (_hcat : endpoint = "now_playing" ∨ endpoint = "popular" ∨
      endpoint = "top_rated" ∨ endpoint = "upcoming")
    (h1 : net (fetchMoviesUrl endpoint) = .error e)
    (h2 : net (fetchRecommendationsUrl movieId) = .error e') :
    fetchMovies net endpoint = [] ∧ fetchMovieRecommendations net movieId = [] := by
  constructor
  · simp [fetchMovies, h1]
  · simp [fetchMovieRecommendations, h2]

/-- C2, witness: a concrete always-failing transport layer. -/
theorem fetch_failSoft_witness :
    fetchMovies failNet "popular" = [] ∧ fetchMovieRecommendations failNet 603 = [] :=
  fetch_failSoft failNet "popular" 603 FetchError.transport FetchError.transport
    (Or.inr (Or.inl rfl)) rfl rfl

/-- C3: `addFavorite` appends the movie at the end of the in-memory
collection unconditionally (no uniqueness check on id), so adding the
same movie twice without an intervening remove leaves at least two
entries with that id in the collection. -/
theorem addFavorite_appends (st : FavState) (m : Movie) :
    (addFavorite m st).favorites = st.favorites ++ [m] ∧
    2 ≤ (addFavorite m (addFavorite m st)).favorites.countP (fun x => x.id == m.id) := by
  refine ⟨rfl, ?_⟩
  simp [addFavorite, List.countP_append, List.countP_cons]

/-- C4: `removeFavorite movieId` removes every entry whose id equals
`movieId` (duplicates included), and when no entry has that id the
in-memory collection is unchanged (and no error is raised: the
operation is total). -/
theorem removeFavorite_removesAll (st : FavState) (movieId : Int) :
    (∀ m ∈ (removeFavorite movieId st).favorites, m.id ≠ movieId) ∧
    ((∀ m ∈ st.favorites, m.id ≠ movieId) →
      (removeFavorite movieId st).favorites = st.favorites) := by
  constructor
  · intro m hm
    simp [removeFavorite, List.mem_filter] at hm
    exact hm.2
  · intro h
    simp only [removeFavorite]
    exact List.filter_eq_self.mpr fun a ha => by simpa using h a ha

/-- C4, witness: removing an id not present in a concrete one-element
collection leaves it unchanged. -/
theorem removeFavorite_removesAll_witness :
    (removeFavorite 5 stSample).favorites = stSample.favorites :=
  (removeFavorite_removesAll stSample 5).2 (by decide)

/-- C5: immediately after `addFavorite m`, `isFavorite m.id` is true;
immediately after `removeFavorite movieId`, `isFavorite movieId` is
false; and `isFavorite movieId` holds iff some entry of the in-memory
collection has that id. -/
theorem isFavorite_add_remove (st : FavState) (m : Movie) (movieId : Int) :
    isFavorite m.id (addFavorite m st) = true ∧
    isFavorite movieId (removeFavorite movieId st) = false ∧
    (isFavorite movieId st = true ↔ ∃ x ∈ st.favorites, x.id = movieId) := by
  refine ⟨?_, ?_, ?_⟩
  · simp [isFavorite, addFavorite]
  · simp only [isFavorite, removeFavorite, List.any_eq_false]
    intro x hx
    simp [List.mem_filter] at hx
    simp [hx.2]
  · simp [isFavorite, List.any_eq_true]

/-- C6: saving any favorites collection through `saveFavorites` and
loading the slot back through `loadFavorites` yields precisely the
JSON image of that collection: decoding recovers the collection
unchanged — same length, same order, field-for-field equal entries. -/
theorem save_load_roundTrip (C : List Movie) :
    decodeMovieList (loadFavorites (some (saveFavorites C))) = some C := by
  simp [loadFavorites, saveFavorites, jsonParse, StoredString.truthy, decodeMovieList,
    decodeMovies_map_encode]

/-- C7, counterexample: the claim "load returns an empty sequence when
the slot content is not decodable as a movie list" is false on the
code: a slot holding the valid JSON text `42` — which is not a movie
list — is returned as-is by `loadFavorites`, not as an empty array. -/
theorem loadFavorites_empty_on_undecodable_counterexample :
    decodeMovieList (Json.num 42) = none ∧
    loadFavorites (some (.strOfJson (Json.num 42))) = Json.num 42 ∧
    Json.num 42 ≠ Json.arr [] :=
  ⟨rfl, rfl, fun h => Json.noConfusion h⟩

/-- C7, amended: `loadFavorites` returns an empty array when the slot
is absent, when its content is a non-empty string on which `JSON.parse`
throws, or when it is the (falsy) empty string; but when the content
parses as JSON the parsed value is returned unvalidated — even when it
is not a movie list. -/
theorem loadFavorites_behavior (j : Json) :
    loadFavorites none = Json.arr [] ∧
    loadFavorites (some .notJson) = Json.arr [] ∧
    loadFavorites (some .emptyStr) = Json.arr [] ∧
    loadFavorites (some (.strOfJson j)) = j :=
  ⟨rfl, rfl, rfl, rfl⟩

/-- C8: on a well-formed catalog response, `fetchMovies` returns one
movie per element of the `results` array, each of its ten fields equal
to the corresponding field of the raw object at the same position. -/
theorem fetchMovies_fieldMap (net : Net) (endpoint : String) (resp : CatalogResponse)
    (h : net (fetchMoviesUrl endpoint) = .ok resp) :
    (fetchMovies net endpoint).length = resp.results.length ∧
    ∀ i : Nat, ∀ r ∈ resp.results[i]?, ∃ m ∈ (fetchMovies net endpoint)[i]?,
      m.id = r.id ∧ m.title = r.title ∧ m.overview = r.overview ∧
      m.poster_path = r.poster_path ∧ m.backdrop_path = r.backdrop_path ∧
      m.vote_average = r.vote_average ∧ m.popularity = r.popularity ∧
      m.original_language = r.original_language ∧ m.release_date = r.release_date ∧
      m.vote_count = r.vote_count := by
  have hf : fetchMovies net endpoint = resp.results.map movieOfRaw := by
    simp [fetchMovies, h]
  constructor
  · simp [hf]
  · intro i r hr
    refine ⟨movieOfRaw r, ?_, rfl, rfl, rfl, rfl, rfl, rfl, rfl, rfl, rfl, rfl⟩
    have hr' : resp.results[i]? = some r := hr
    simp [hf, List.getElem?_map, hr', Option.mem_def]

/-- C8, witness: a concrete well-formed one-element response yields a
one-element movie list. -/
theorem fetchMovies_fieldMap_witness :
    (fetchMovies okNet "now_playing").length = 1 :=
  (fetchMovies_fieldMap okNet "now_playing" { results := [sampleRaw] } rfl).1

/-- C9: the favorites collection preserves insertion order under every
mutation — `addFavorite` appends at the end leaving the existing
entries in place, and `removeFavorite` keeps the surviving entries (all
those whose id differs) in their original relative order (the result is
a sublist of the original collection). -/
theorem favorites_orderPreserved (st : FavState) (m : Movie) (movieId : Int) :
    (addFavorite m st).favorites = st.favorites ++ [m] ∧
    List.Sublist (removeFavorite movieId st).favorites st.favorites ∧
    (∀ x ∈ st.favorites, x.id ≠ movieId → x ∈ (removeFavorite movieId st).favorites) := by
  refine ⟨rfl, ?_, ?_⟩
  · simpa only [removeFavorite] using List.filter_sublist st.favorites
  · intro x hx hne
    simp [removeFavorite, List.mem_filter, hx, hne]

/-- C9, witness: a surviving concrete entry is still present after a
remove of a different id. -/
theorem favorites_orderPreserved_witness :
    sampleMovie ∈ (removeFavorite 5 stSample).favorites :=
  (favorites_orderPreserved stSample sampleMovie 5).2.2 sampleMovie (by decide) (by decide)

/-- C10: for a collection with no entry of id `m.id`, `addFavorite m`
followed by `removeFavorite m.id` restores the in-memory collection
exactly; when an entry with that id is already present the round-trip
fails, since the remove strips all matches. -/
theorem addRemove_freshId (st : FavState) (m : Movie) :
    ((∀ x ∈ st.favorites, x.id ≠ m.id) →
      (removeFavorite m.id (addFavorite m st)).favorites = st.favorites) ∧
    ((∃ x ∈ st.favorites, x.id = m.id) →
      (removeFavorite m.id (addFavorite m st)).favorites ≠ st.favorites) := by
  constructor
  · intro h
    simp only [removeFavorite, addFavorite, List.filter_append]
    rw [List.filter_eq_self.mpr fun a ha => by simpa using h a ha]
    simp
  · rintro ⟨x, hx, hid⟩ heq
    have hxr : x ∈ (removeFavorite m.id (addFavorite m st)).favorites := heq ▸ hx
    simp [removeFavorite, List.mem_filter] at hxr
    exact hxr.2 hid

/-- C10, witness: the round-trip holds on an id-fresh concrete state
and fails on a concrete state already containing the id. -/
theorem addRemove_freshId_witness :
    (removeFavorite sampleMovie.id (addFavorite sampleMovie emptySt)).favorites =
      emptySt.favorites ∧
    (removeFavorite sampleMovie.id (addFavorite sampleMovie stSample)).favorites ≠
      stSample.favorites :=
  ⟨(addRemove_freshId emptySt sampleMovie).1 (by decide),
   (addRemove_freshId stSample sampleMovie).2 ⟨sampleMovie, by decide, rfl⟩⟩

end MovieApps
